import Mathlib

/-!
Verification of the project-scaffolding engine in `scaffold.py`
(starter-webapp repository).

Strings are modelled as `List Char`.  Python's `str.lower` / `str.title`
are modelled on the ASCII range (the character classes appearing in the
source — `[a-z0-9-_]`, `'-'`, `'_'`, `'*'` — are all ASCII, and every
concrete value exercised below is ASCII).

The scaffolding pipeline (`ProjectScaffolder.scaffold` and `main`) is
embedded as a function from an environment record — the outcomes the
filesystem, the interactive prompt and the spawned subprocesses would
produce — to a run result carrying the success flag, an event trace (one
event per externally visible action of the source), and the final state
of the two live environment files.
-/

namespace Scaffold

/-! ### NameTransform (`scaffold.py` lines 60-74, 86-88)

`sanitize_name` (lines 66-74):
  1. `name.lower()`
  2. `re.sub(r'[^a-z0-9\-_]', '-', ·)` — every char outside the class
     becomes `'-'` (the regex matches single characters),
  3. `re.sub(r'-+', '-', ·)` — collapse runs of `'-'`,
  4. `.strip('-_')` — drop leading/trailing `'-'` and `'_'`.
-/

/-- ASCII model of Python `str.lower` applied to one character. -/
def lowerChar (c : Char) : Char :=
  if 'A' ≤ c ∧ c ≤ 'Z' then Char.ofNat (c.toNat + 32) else c

/-- ASCII model of Python `str.upper` applied to one character. -/
def upperChar (c : Char) : Char :=
  if 'a' ≤ c ∧ c ≤ 'z' then Char.ofNat (c.toNat - 32) else c

/-- Membership in the character class `[a-z0-9-_]` of the regex on line 69. -/
def isAllowed (c : Char) : Bool :=
  decide (('a' ≤ c ∧ c ≤ 'z') ∨ ('0' ≤ c ∧ c ≤ '9') ∨ c = '-' ∨ c = '_')

/-- One character of the substitution `re.sub(r'[^a-z0-9\-_]', '-', s)`. -/
def replaceDisallowed (c : Char) : Char :=
  if isAllowed c then c else '-'

/-- `re.sub(r'-+', '-', s)`: collapse each run of hyphens to a single one. -/
def collapseDashes : List Char → List Char
  | [] => []
  | [c] => [c]
  | a :: b :: rest =>
    if a = '-' ∧ b = '-' then collapseDashes (b :: rest)
    else a :: collapseDashes (b :: rest)

/-- The characters removed by `.strip('-_')`. -/
def isStripChar (c : Char) : Bool :=
  decide (c = '-' ∨ c = '_')

/-- Python `s.strip('-_')`: drop the maximal run of `-`/`_` at each end. -/
def stripEnds (s : List Char) : List Char :=
  ((s.dropWhile isStripChar).reverse.dropWhile isStripChar).reverse

/-- `sanitize_name` (`scaffold.py` lines 66-74). -/
def sanitize_name (s : List Char) : List Char :=
  stripEnds (collapseDashes (s.map fun c => replaceDisallowed (lowerChar c)))

/-- Adjacent-character invariant produced by collapsing hyphen runs:
no two consecutive characters are both `'-'`. -/
@[reducible] def NotDD (a b : Char) : Prop :=
  ¬(a = '-' ∧ b = '-')

/-! ### ExclusionMatcher (`scaffold.py` lines 91-105, 121-129) -/

/-- The `exclude_patterns` set literal of `ProjectScaffolder.__init__`
(lines 91-105), in source order.  `should_exclude` is an existential
over the set, so the iteration order of the Python `set` is irrelevant. -/
def exclude_patterns : List (List Char) :=
  ["__pycache__".data, "*.pyc".data, "*.pyo".data, ".git".data,
   ".gitignore".data, "venv".data, "node_modules".data, ".env".data,
   "*.db".data, "dist".data, ".vite".data, "temp.tmp".data,
   "scaffold.py".data]

/-- One iteration of the loop in `should_exclude` (lines 123-128):
a pattern starting with `'*'` matches when the entry name ends with the
remainder (`path.name.endswith(pattern[1:])`), any other pattern matches
on exact equality (`path.name == pattern`). -/
def ruleMatches : List Char → List Char → Bool
  | [], entry => entry == ([] : List Char)
  | c :: rest, entry =>
    if c = '*' then rest.isSuffixOf entry else entry == c :: rest

/-- `ProjectScaffolder.should_exclude` (lines 121-129), applied to the
entry's basename (the source only ever consults `path.name`). -/
def should_exclude (entry : List Char) : Bool :=
  exclude_patterns.any fun p => ruleMatches p entry

/-- The matching relation as the spec words it (§4.2): a rule starting
with `*` matches when the entry name ends with the remainder, any other
rule matches on exact equality. -/
def SpecRuleMatches : List Char → List Char → Prop
  | [], entry => entry = []
  | c :: rest, entry =>
    if c = '*' then rest <:+ entry else entry = c :: rest

/-! ### ContentRewriter (`scaffold.py` lines 164-202)

`update_file_contents` reads each template file and applies, in the
insertion order of the `replacements` dict literal (lines 168-176),
`content = content.replace(old, new)` — Python's literal, case-sensitive,
left-to-right, non-overlapping replace-all. -/

/-- Python `s.replace(old, new)` for a non-empty pattern, with explicit
fuel so that the definition is structurally recursive (the fuel is the
length of the string being scanned, which strictly bounds the number of
recursion steps).  Scanning is left-to-right; after a match the scan
resumes after the matched occurrence (no rescanning of emitted output).
The `old = []` case is unreachable for the production table, whose
search strings are all non-empty literals; it is defined to leave the
string unchanged. -/
def replaceAllAux (old new : List Char) : Nat → List Char → List Char
  | 0, s => s
  | _ + 1, [] => []
  | fuel + 1, c :: rest =>
    if old.isPrefixOf (c :: rest) ∧ old ≠ [] then
      new ++ replaceAllAux old new fuel ((c :: rest).drop old.length)
    else
      c :: replaceAllAux old new fuel rest

/-- Python `s.replace(old, new)` (line 191: `content.replace(old, new)`). -/
def replaceAll (old new s : List Char) : List Char :=
  replaceAllAux old new s.length s

/-- The loop `for old, new in replacements.items(): content = content.replace(old, new)`
(lines 190-191). -/
def applyReplacements (table : List (List Char × List Char)) (content : List Char) : List Char :=
  table.foldl (fun acc e => replaceAll e.1 e.2 acc) content

/-- `self.snake_case_name = project_name.replace('-', '_')` (line 86). -/
def snakeCaseName (name : List Char) : List Char :=
  name.map fun c => if c = '-' then '_' else c

/-- ASCII approximation of Python's notion of a cased character,
sufficient for the validated project names fed to `.title()`. -/
def isAsciiAlpha (c : Char) : Bool :=
  decide (('a' ≤ c ∧ c ≤ 'z') ∨ ('A' ≤ c ∧ c ≤ 'Z'))

/-- Python `str.title()`: a cased character following a non-cased
character is uppercased, a cased character following a cased character
is lowercased (ASCII model).  The Boolean argument records whether the
previous character was cased. -/
def pyTitleAux : Bool → List Char → List Char
  | _, [] => []
  | prevCased, c :: rest =>
    (if isAsciiAlpha c then (if prevCased then lowerChar c else upperChar c) else c)
      :: pyTitleAux (isAsciiAlpha c) rest

/-- `self.title_case_name = project_name.replace('-', ' ').replace('_', ' ').title()`
(line 87). -/
def titleCaseName (name : List Char) : List Char :=
  pyTitleAux false (name.map fun c => if c = '-' ∨ c = '_' then ' ' else c)

/-- The `replacements` dict literal of `update_file_contents`
(lines 168-176), in insertion order. -/
def replacements (name desc : List Char) : List (List Char × List Char) :=
  [("starter-webapp".data, name),
   ("starter_webapp".data, snakeCaseName name),
   ("Starter Web App".data, titleCaseName name),
   ("Full-stack template with FastAPI + React".data, desc),
   ("starter-webapp-frontend".data, name ++ "-frontend".data),
   ("starter-webapp-backend".data, name ++ "-backend".data),
   ("starter-webapp-db".data, name ++ "-db".data)]

/-- Hypothesis of claim C6, as stated: no entry's replacement text
contains any entry's search text as a substring. -/
@[reducible] def noReplacementContainsSearch (t : List (List Char × List Char)) : Prop :=
  ∀ e₁ ∈ t, ∀ e₂ ∈ t, ¬ e₂.1 <:+: e₁.2

/-! ### Pipeline model (`scaffold.py` lines 79-88, 316-370, 372-446, 448-485, 517-612) -/

/-- The four pipeline steps of the `steps` list in `scaffold`
(lines 466-471), in order. -/
inductive StepName
  | copyStep
  | updateStep
  | gitStep
  | envStep
deriving DecidableEq

/-- The step names as printed by the source (first components of the
`steps` list, lines 466-471). -/
def stepTitle : StepName → List Char
  | .copyStep => "Copying template structure".data
  | .updateStep => "Updating file contents".data
  | .gitStep => "Initializing git repository".data
  | .envStep => "Setting up development environment".data

/-- The two conventional sub-project directories. -/
inductive SubProject
  | backend
  | frontend
deriving DecidableEq

/-- Externally visible actions of one scaffold run. -/
inductive Event
  | promptCancelled
  | mkdirTarget
  | stepStarted (s : StepName)
  | stepFailed (s : StepName)
  | copyFiles
  | copyEnvFile (p : SubProject)
  | runVenv
  | runPipInstall
  | runNpmInstall
  | logInstallOk (p : SubProject)
  | logInstallWarn (p : SubProject)
  | logVenvWarn
  | writeSummary
  | summaryWarn
deriving DecidableEq

/-- The resolved paths of `ProjectScaffolder.__init__` (lines 82-83):
`self.target_dir = Path(target_dir).resolve()` and
`self.template_dir = Path(__file__).parent.resolve()`, as component
lists. -/
structure Config where
  templateDir : List String
  targetDir : List String
deriving DecidableEq

/-- The parsed command-line arguments of `main` (lines 539-563):
`--name`, `--description`, `--target`, `--skip-deps`. -/
structure Args where
  name : String
  description : String
  target : Option String
  skipDeps : Bool
deriving DecidableEq

/-- Everything the outside world decides during one run: filesystem
facts consulted by the source, subprocess exit statuses, the answer to
the interactive prompt, and the outcomes of the fallible steps. -/
structure Env where
  /-- `self.target_dir.exists()` (line 454). -/
  targetExists : Bool
  /-- `any(self.target_dir.iterdir())` (line 455). -/
  targetNonempty : Bool
  /-- whether the prompt answer (line 457) lowercases to `'y'`. -/
  confirmContinue : Bool
  /-- outcome of `copy_template_structure` (lines 131-162). -/
  copyOk : Bool
  /-- outcome of `update_file_contents` (lines 164-202). -/
  updateOk : Bool
  /-- outcome of `initialize_git_repository` (lines 204-314). -/
  gitOk : Bool
  /-- content of `backend/.env.example` under the target, if it exists. -/
  backendEnvExample : Option String
  /-- content of `frontend/.env.example` under the target, if it exists. -/
  frontendEnvExample : Option String
  /-- content of `backend/.env` before the bootstrap step, if it exists. -/
  backendEnvLive : Option String
  /-- content of `frontend/.env` before the bootstrap step, if it exists. -/
  frontendEnvLive : Option String
  /-- `(backend_dir / 'requirements.txt').exists()` (line 340). -/
  backendReq : Bool
  /-- `(frontend_dir / 'package.json').exists()` (line 359). -/
  frontendPkg : Bool
  /-- exit status of `python -m venv venv` (line 342). -/
  venvExit : Bool
  /-- exit status of the pip install command (line 350). -/
  pipExit : Bool
  /-- exit status of `npm install` (line 361). -/
  npmExit : Bool
  /-- whether `subprocess.check_output(['date'])` (line 382) succeeds. -/
  dateOk : Bool
  /-- whether writing `PROJECT_SUMMARY.md` (line 442) succeeds. -/
  summaryWriteOk : Bool
deriving DecidableEq

/-- Result of the bootstrap step: its return value, its event trace and
the resulting live env files. -/
structure SetupResult where
  success : Bool
  events : List Event
  backendEnvLive : Option String
  frontendEnvLive : Option String
deriving DecidableEq

/-- Result of one whole run.  `raised = true` models an exception
escaping `scaffold` into `main`'s generic handler (lines 610-612). -/
structure RunResult where
  raised : Bool
  success : Bool
  events : List Event
  backendEnvLive : Option String
  frontendEnvLive : Option String
deriving DecidableEq

/-- `run_command` (lines 40-58): `subprocess.run(..., check=check)`
raises `CalledProcessError` — the only exception the function catches,
returning `False` — only when `check` is true and the exit status is
non-zero; in every other case the function returns `True`.  In
particular `run_command(..., check=False)` returns `True` regardless of
the command's exit status. -/
def run_command (check : Bool) (exitOk : Bool) : Bool :=
  if check then exitOk else true

/-- Lines 321-333: `if <sub>_env_example.exists(): shutil.copy2(example, live)`
— the copy is attempted whenever the example exists (the trace part). -/
def envCopyEvents (exampleFile : Option String) (sub : SubProject) : List Event :=
  match exampleFile with
  | some _ => [Event.copyEnvFile sub]
  | none => []

/-- Lines 321-333, effect on the live file: `shutil.copy2` replaces the
destination with the source's content whenever the example exists. -/
def envLiveAfter (exampleFile live : Option String) : Option String :=
  match exampleFile with
  | some content => some content
  | none => live

/-- Lines 338-355: backend dependency installation.  Both `run_command`
calls pass `check=False`. -/
def backendInstallEvents (env : Env) : List Event :=
  if env.backendReq then
    [Event.runVenv] ++
      (if run_command false env.venvExit then
        [Event.runPipInstall] ++
          (if run_command false env.pipExit then [Event.logInstallOk .backend]
           else [Event.logInstallWarn .backend])
       else [Event.logVenvWarn])
  else []

/-- Lines 357-364: frontend dependency installation (`check=False`). -/
def frontendInstallEvents (env : Env) : List Event :=
  if env.frontendPkg then
    [Event.runNpmInstall] ++
      (if run_command false env.npmExit then [Event.logInstallOk .frontend]
       else [Event.logInstallWarn .frontend])
  else []

/-- `setup_development_environment` (lines 316-370): copy the two env
files, then attempt the installs, then `return True` (line 366). -/
def setup_development_environment (env : Env) : SetupResult :=
  { success := true
    events := envCopyEvents env.backendEnvExample .backend
      ++ envCopyEvents env.frontendEnvExample .frontend
      ++ backendInstallEvents env ++ frontendInstallEvents env
    backendEnvLive := envLiveAfter env.backendEnvExample env.backendEnvLive
    frontendEnvLive := envLiveAfter env.frontendEnvExample env.frontendEnvLive }

/-- `create_project_summary` (lines 372-446).  The summary text is an
f-string evaluated **before** the `try` block, and it contains
`subprocess.check_output(['date'], ...)` (line 382): if that call
raises, the exception escapes the method (`none`).  Only the file write
(lines 441-446) is inside the `try`, whose handler downgrades a write
failure to a warning. -/
def create_project_summary (env : Env) : Option (List Event) :=
  if env.dateOk then
    some (if env.summaryWriteOk then [Event.writeSummary] else [Event.summaryWarn])
  else none

/-- Lines 454-460: the run is cancelled iff the target exists, is
non-empty, and the prompt answer is not `y`. -/
def cancelledPrompt (env : Env) : Bool :=
  env.targetExists && env.targetNonempty && !env.confirmContinue

/-- `ProjectScaffolder.scaffold` (lines 448-485), with the `steps` loop
(lines 466-477) unrolled over its four-element literal list.  Note that
the method never compares `self.target_dir` with `self.template_dir`:
no subpath validation of any kind appears in the source, which is why
`cfg` is not consulted below. -/
def scaffold (cfg : Config) (env : Env) : RunResult :=
  if cancelledPrompt env then
    { raised := false, success := false, events := [Event.promptCancelled],
      backendEnvLive := env.backendEnvLive, frontendEnvLive := env.frontendEnvLive }
  else
    let ev0 := if env.targetExists then ([] : List Event) else [Event.mkdirTarget]
    let ev1 := ev0 ++ [Event.stepStarted .copyStep, Event.copyFiles]
    if env.copyOk = false then
      { raised := false, success := false, events := ev1 ++ [Event.stepFailed .copyStep],
        backendEnvLive := env.backendEnvLive, frontendEnvLive := env.frontendEnvLive }
    else
      let ev2 := ev1 ++ [Event.stepStarted .updateStep]
      if env.updateOk = false then
        { raised := false, success := false, events := ev2 ++ [Event.stepFailed .updateStep],
          backendEnvLive := env.backendEnvLive, frontendEnvLive := env.frontendEnvLive }
      else
        let ev3 := ev2 ++ [Event.stepStarted .gitStep]
        if env.gitOk = false then
          { raised := false, success := false, events := ev3 ++ [Event.stepFailed .gitStep],
            backendEnvLive := env.backendEnvLive, frontendEnvLive := env.frontendEnvLive }
        else
          let s := setup_development_environment env
          let ev4 := ev3 ++ [Event.stepStarted .envStep] ++ s.events
          if s.success = false then
            { raised := false, success := false, events := ev4 ++ [Event.stepFailed .envStep],
              backendEnvLive := s.backendEnvLive, frontendEnvLive := s.frontendEnvLive }
          else
            match create_project_summary env with
            | none =>
              { raised := true, success := false, events := ev4,
                backendEnvLive := s.backendEnvLive, frontendEnvLive := s.frontendEnvLive }
            | some evS =>
              { raised := false, success := true, events := ev4 ++ evS,
                backendEnvLive := s.backendEnvLive, frontendEnvLive := s.frontendEnvLive }

/-- The process exit code (lines 604-612): `sys.exit(0 if success else 1)`,
and `sys.exit(1)` from the generic exception handler. -/
def mainExit (cfg : Config) (env : Env) : Nat :=
  let r := scaffold cfg env
  if r.raised then 1 else if r.success then 0 else 1

/-- `main` (lines 517-612) constructs
`ProjectScaffolder(project_name, description, target_dir)` (line 602)
and calls `scaffold`.  `args.skip_deps` is declared (lines 557-561) but
never read anywhere after parsing, so the run is independent of it. -/
def mainScaffold (a : Args) (cfg : Config) (env : Env) : RunResult :=
  scaffold cfg env

/-- Resolved-path relation of the C1 claim: the target root lies at or
below the template root. -/
def isSubpathOf (target template : List String) : Bool :=
  template.isPrefixOf target

/-! ### Concrete fixtures used by the closed theorems -/

/-- A run in which every external interaction succeeds. -/
def envAllOk : Env :=
  { targetExists := false, targetNonempty := false, confirmContinue := false,
    copyOk := true, updateOk := true, gitOk := true,
    backendEnvExample := none, frontendEnvExample := none,
    backendEnvLive := none, frontendEnvLive := none,
    backendReq := false, frontendPkg := false,
    venvExit := true, pipExit := true, npmExit := true,
    dateOk := true, summaryWriteOk := true }

/-- Target resolved to a directory strictly inside the template root. -/
def cfgSub : Config :=
  { templateDir := ["home", "user", "starter-webapp"],
    targetDir := ["home", "user", "starter-webapp", "new-proj"] }

/-- Target resolved outside the template root. -/
def cfgDemo : Config :=
  { templateDir := ["home", "user", "starter-webapp"],
    targetDir := ["home", "user", "proj"] }

/-- All pipeline steps succeed but the `date` subprocess of the summary
step fails. -/
def envDateFail : Env := { envAllOk with dateOk := false }

/-- All pipeline steps succeed but writing `PROJECT_SUMMARY.md` fails. -/
def envWriteFail : Env := { envAllOk with summaryWriteOk := false }

/-- Both dependency-declaration files exist and both install commands
exit non-zero. -/
def envPipFail : Env :=
  { envAllOk with backendReq := true, frontendPkg := true,
                  pipExit := false, npmExit := false }

/-- Both dependency-declaration files exist; installs succeed. -/
def envDeps : Env := { envAllOk with backendReq := true, frontendPkg := true }

/-- The copy step fails. -/
def envCopyFail : Env := { envAllOk with copyOk := false }

/-- The rewrite step fails. -/
def envUpdateFail : Env := { envAllOk with updateOk := false }

/-- The repository-init step fails. -/
def envGitFail : Env := { envAllOk with gitOk := false }

/-- A pre-existing live backend env file next to an example file. -/
def envC2 : Env :=
  { envAllOk with backendEnvExample := some "EXAMPLE CONTENT",
                  backendEnvLive := some "USER EDITS" }

/-- A command line that passes the skip-dependency flag. -/
def argsSkip : Args :=
  { name := "blog", description := "A blog", target := none, skipDeps := true }

/-! ## Theorems -/

/-! ### Literal replacement: helper lemmas -/

theorem replaceAllAux_no_occurrence (old new : List Char) :
    ∀ (fuel : Nat) (s : List Char), ¬ old <:+: s → replaceAllAux old new fuel s = s
  | 0, _, _ => rfl
  | _ + 1, [], _ => rfl
  | fuel + 1, c :: rest, h => by
    have hnp : ¬(old.isPrefixOf (c :: rest) ∧ old ≠ []) := by
      rintro ⟨hp, -⟩
      have hpre := List.isPrefixOf_iff_prefix.mp hp
      exact h hpre.isInfix
    have hr : ¬ old <:+: rest := fun hin => h (List.infix_cons hin)
    simp only [replaceAllAux, if_neg hnp]
    rw [replaceAllAux_no_occurrence old new fuel rest hr]

theorem replaceAll_no_occurrence (old new s : List Char) (h : ¬ old <:+: s) :
    replaceAll old new s = s :=
  replaceAllAux_no_occurrence old new s.length s h

theorem applyReplacements_no_occurrence (t : List (List Char × List Char)) (s : List Char)
    (h : ∀ e ∈ t, ¬ e.1 <:+: s) : applyReplacements t s = s := by
  induction t with
  | nil => rfl
  | cons e t ih =>
    have h1 : replaceAll e.1 e.2 s = s :=
      replaceAll_no_occurrence e.1 e.2 s (h e (List.mem_cons_self e t))
    have h2 : ∀ f ∈ t, ¬ f.1 <:+: s := fun f hf => h f (List.mem_cons_of_mem e hf)
    calc applyReplacements (e :: t) s = applyReplacements t (replaceAll e.1 e.2 s) := rfl
    _ = applyReplacements t s := by rw [h1]
    _ = s := ih h2

/-! ### C6 -/

/-- C6 counterexample: with project name `st` and description `d`, no
entry's replacement text (`st`, `st`, `St`, `d`, `st-frontend`,
`st-backend`, `st-db`) contains any entry's search text as a substring,
yet on the content `starter_webapparter-webapp` one application of the
table yields `starter-webapp` (the second entry's replacement rejoins
with the following text to recreate the first entry's search text) and
a second application collapses that to `st`: applying the table twice
differs from applying it once. -/
theorem replace_twice_counterexample :
    noReplacementContainsSearch (replacements "st".data "d".data) ∧
    applyReplacements (replacements "st".data "d".data)
        (applyReplacements (replacements "st".data "d".data) "starter_webapparter-webapp".data)
      ≠ applyReplacements (replacements "st".data "d".data) "starter_webapparter-webapp".data := by
  constructor
  · decide
  · decide

/-- C6 amended: applying the production replacement table twice yields
the same result as applying it once, provided no entry's search text
occurs as a substring of the once-applied result (the original
hypothesis — that no entry's replacement text contains any entry's
search text — is not sufficient, because a replacement can rejoin with
adjacent content to recreate a search text). -/
theorem applyReplacements_twice_eq_once (name desc content : List Char)
    (h : ∀ e ∈ replacements name desc,
      ¬ e.1 <:+: applyReplacements (replacements name desc) content) :
    applyReplacements (replacements name desc)
        (applyReplacements (replacements name desc) content)
      = applyReplacements (replacements name desc) content :=
  applyReplacements_no_occurrence _ _ h

/-- Witness for the amended C6 at name `blog-platform`, description
`A blog`, content `hello world`. -/
theorem applyReplacements_twice_eq_once_witness :
    applyReplacements (replacements "blog-platform".data "A blog".data)
        (applyReplacements (replacements "blog-platform".data "A blog".data)
          "hello world".data)
      = applyReplacements (replacements "blog-platform".data "A blog".data)
          "hello world".data :=
  applyReplacements_twice_eq_once "blog-platform".data "A blog".data "hello world".data
    (by decide)

/-! ### C10 -/

/-- C10 counterexample: with project name `star` and description `d` —
none of which contains `starter-webapp`, nor does the snake-case form
`star` — the text `starter-webappter-webapp-frontend` is rewritten by
the first entry to `starter-webapp-frontend` (the replacement `star`
rejoins with the remaining text to recreate the search string), which
the fifth entry then rewrites: the full seven-entry table gives
`star-frontend` while the first four entries give
`starter-webapp-frontend`. -/
theorem full_table_vs_first_four_counterexample :
    ¬ "starter-webapp".data <:+: "star".data ∧
    ¬ "starter-webapp".data <:+: snakeCaseName "star".data ∧
    ¬ "starter-webapp".data <:+: "d".data ∧
    applyReplacements (replacements "star".data "d".data)
        "starter-webappter-webapp-frontend".data
      ≠ applyReplacements ((replacements "star".data "d".data).take 4)
        "starter-webappter-webapp-frontend".data := by
  refine ⟨by decide, by decide, by decide, by decide⟩

/-- C10 amended: applying the full seven-entry table yields the same
output as applying only its first four entries, provided none of the
last three entries' search texts occurs as a substring of the result of
applying the first four entries (the claim's hypothesis on the name,
its snake-case form and the description is not sufficient, because a
replacement can rejoin with adjacent text to recreate an occurrence of
`starter-webapp-frontend`/`-backend`/`-db`). -/
theorem full_table_eq_first_four (name desc text : List Char)
    (h : ∀ e ∈ (replacements name desc).drop 4,
      ¬ e.1 <:+: applyReplacements ((replacements name desc).take 4) text) :
    applyReplacements (replacements name desc) text
      = applyReplacements ((replacements name desc).take 4) text := by
  conv_lhs => rw [← List.take_append_drop 4 (replacements name desc)]
  rw [applyReplacements, List.foldl_append]
  exact applyReplacements_no_occurrence _ _ h

/-- Witness for the amended C10 at name `blog`, description `A blog`,
text `hello starter-webapp`. -/
theorem full_table_eq_first_four_witness :
    applyReplacements (replacements "blog".data "A blog".data)
        "hello starter-webapp".data
      = applyReplacements ((replacements "blog".data "A blog".data).take 4)
        "hello starter-webapp".data :=
  full_table_eq_first_four "blog".data "A blog".data "hello starter-webapp".data (by decide)

/-! ### C7: helper lemmas about the four sanitization stages -/

theorem lowerChar_of_allowed {c : Char} (h : isAllowed c = true) : lowerChar c = c := by
  rw [isAllowed, decide_eq_true_iff] at h
  rw [lowerChar, if_neg]
  rintro ⟨h1, h2⟩
  rcases h with ⟨ha, _⟩ | ⟨_, hb⟩ | rfl | rfl
  · exact absurd (le_trans ha h2) (by decide)
  · exact absurd (le_trans h1 hb) (by decide)
  · exact absurd h1 (by decide)
  · exact absurd h2 (by decide)

theorem replaceDisallowed_of_allowed {c : Char} (h : isAllowed c = true) :
    replaceDisallowed c = c := by
  rw [replaceDisallowed, if_pos h]

theorem isAllowed_replaceDisallowed (c : Char) : isAllowed (replaceDisallowed c) = true := by
  rw [replaceDisallowed]
  split
  · assumption
  · decide

theorem allowed_of_mem_mapStage {s : List Char} {c : Char}
    (h : c ∈ s.map fun x => replaceDisallowed (lowerChar x)) : isAllowed c = true := by
  rcases List.mem_map.mp h with ⟨x, -, rfl⟩
  exact isAllowed_replaceDisallowed (lowerChar x)

theorem mem_collapseDashes : ∀ (l : List Char), ∀ c ∈ collapseDashes l, c ∈ l
  | [] => by simp [collapseDashes]
  | [a] => by simp [collapseDashes]
  | a :: b :: rest => by
    intro c hc
    simp only [collapseDashes] at hc
    split at hc
    · exact List.mem_cons_of_mem a (mem_collapseDashes (b :: rest) c hc)
    · rcases List.mem_cons.mp hc with h | h
      · exact h ▸ List.mem_cons_self a (b :: rest)
      · exact List.mem_cons_of_mem a (mem_collapseDashes (b :: rest) c h)

theorem head?_collapseDashes : ∀ l : List Char, (collapseDashes l).head? = l.head?
  | [] => rfl
  | [_] => rfl
  | a :: b :: rest => by
    simp only [collapseDashes]
    split
    · rename_i h
      rw [head?_collapseDashes (b :: rest)]
      simp [h.1, h.2]
    · rfl

theorem chain'_collapseDashes : ∀ l : List Char, List.Chain' NotDD (collapseDashes l)
  | [] => by simp [collapseDashes]
  | [a] => by simp [collapseDashes]
  | a :: b :: rest => by
    simp only [collapseDashes]
    split
    · exact chain'_collapseDashes (b :: rest)
    · rename_i h
      have hh := head?_collapseDashes (b :: rest)
      have hch := chain'_collapseDashes (b :: rest)
      cases hcb : collapseDashes (b :: rest) with
      | nil => simp
      | cons x t =>
        rw [hcb] at hh hch
        simp only [List.head?_cons, Option.some.injEq] at hh
        subst hh
        rw [List.chain'_cons]
        exact ⟨h, hch⟩

theorem collapseDashes_eq_self : ∀ l : List Char, List.Chain' NotDD l → collapseDashes l = l
  | [], _ => rfl
  | [_], _ => rfl
  | a :: b :: rest, h => by
    rw [List.chain'_cons] at h
    simp only [collapseDashes, if_neg h.1]
    rw [collapseDashes_eq_self (b :: rest) h.2]

theorem head?_dropWhile_not (p : Char → Bool) :
    ∀ (l : List Char) (c : Char), (l.dropWhile p).head? = some c → p c = false
  | [], c => by simp [List.dropWhile]
  | a :: l, c => by
    rw [List.dropWhile_cons]
    split
    · exact head?_dropWhile_not p l c
    · rename_i h
      intro hc
      simp only [List.head?_cons, Option.some.injEq] at hc
      subst hc
      simp only [Bool.not_eq_true] at h
      exact h

theorem dropWhile_eq_self_of_head (p : Char → Bool) (l : List Char)
    (h : ∀ c, l.head? = some c → p c = false) : l.dropWhile p = l := by
  cases l with
  | nil => rfl
  | cons a t => simp [List.dropWhile_cons, h a rfl]

theorem stripEnds_isPrefix (l : List Char) : stripEnds l <+: l.dropWhile isStripChar := by
  rw [stripEnds]
  have h1 :
      (l.dropWhile isStripChar).reverse.dropWhile isStripChar
        <:+ (l.dropWhile isStripChar).reverse :=
    List.dropWhile_suffix isStripChar
  have h2 := List.reverse_prefix.mpr h1
  rwa [List.reverse_reverse] at h2

theorem stripEnds_contained (l : List Char) : stripEnds l <:+: l := by
  have h1 := (stripEnds_isPrefix l).isInfix
  have h2 := (List.dropWhile_suffix (l := l) isStripChar).isInfix
  exact h1.trans h2

theorem head?_of_isPrefix {l₁ l₂ : List Char} (h : l₁ <+: l₂) (hne : l₁ ≠ []) :
    l₁.head? = l₂.head? := by
  rcases h with ⟨t, rfl⟩
  cases l₁ with
  | nil => exact absurd rfl hne
  | cons a l => rfl

theorem stripEnds_head (l : List Char) (c : Char) (h : (stripEnds l).head? = some c) :
    isStripChar c = false := by
  have hne : stripEnds l ≠ [] := by
    intro e
    rw [e] at h
    cases h
  have hp := head?_of_isPrefix (stripEnds_isPrefix l) hne
  rw [hp] at h
  exact head?_dropWhile_not isStripChar l c h

theorem stripEnds_last (l : List Char) (c : Char) (h : (stripEnds l).getLast? = some c) :
    isStripChar c = false := by
  rw [stripEnds, List.getLast?_reverse] at h
  exact head?_dropWhile_not isStripChar _ c h

theorem stripEnds_eq_self (l : List Char)
    (h1 : ∀ c, l.head? = some c → isStripChar c = false)
    (h2 : ∀ c, l.getLast? = some c → isStripChar c = false) : stripEnds l = l := by
  have h3 : ∀ c, l.reverse.head? = some c → isStripChar c = false := by
    intro c hc
    rw [List.head?_reverse] at hc
    exact h2 c hc
  rw [stripEnds, dropWhile_eq_self_of_head isStripChar l h1,
      dropWhile_eq_self_of_head isStripChar l.reverse h3, List.reverse_reverse]

theorem stripEnds_idem (l : List Char) : stripEnds (stripEnds l) = stripEnds l :=
  stripEnds_eq_self (stripEnds l) (stripEnds_head l) (stripEnds_last l)

theorem sanitize_allowed (s : List Char) : ∀ c ∈ sanitize_name s, isAllowed c = true := by
  intro c hc
  rw [sanitize_name] at hc
  have hc2 := (stripEnds_contained _).sublist.subset hc
  have hc3 := mem_collapseDashes _ c hc2
  exact allowed_of_mem_mapStage hc3

theorem sanitize_chain' (s : List Char) : List.Chain' NotDD (sanitize_name s) := by
  rw [sanitize_name]
  have hch := chain'_collapseDashes (s.map fun c => replaceDisallowed (lowerChar c))
  exact List.Chain'.infix hch (stripEnds_contained _)

/-! ### C7 -/

/-- C7: `sanitize_name` is idempotent — once an input has been
lowercased, its out-of-class characters replaced by `-`, hyphen runs
collapsed and the ends stripped of `-`/`_`, running the same four
stages again changes nothing: every remaining character is in
`[a-z0-9-_]` (fixed by the lowercasing and the substitution), no two
adjacent hyphens remain (so collapsing is the identity), and the ends
carry no `-`/`_` (so stripping is the identity). -/
theorem sanitize_name_idempotent (s : List Char) :
    sanitize_name (sanitize_name s) = sanitize_name s := by
  have hall := sanitize_allowed s
  have hmap :
      ((sanitize_name s).map fun c => replaceDisallowed (lowerChar c)) = sanitize_name s := by
    have he : ∀ c ∈ sanitize_name s, replaceDisallowed (lowerChar c) = c := by
      intro c hc
      rw [lowerChar_of_allowed (hall c hc), replaceDisallowed_of_allowed (hall c hc)]
    rw [List.map_congr_left he]
    simp
  have hcol : collapseDashes (sanitize_name s) = sanitize_name s :=
    collapseDashes_eq_self _ (sanitize_chain' s)
  have hstrip : stripEnds (sanitize_name s) = sanitize_name s :=
    stripEnds_idem (collapseDashes (s.map fun c => replaceDisallowed (lowerChar c)))
  calc sanitize_name (sanitize_name s)
      = stripEnds (collapseDashes
          ((sanitize_name s).map fun c => replaceDisallowed (lowerChar c))) := rfl
    _ = stripEnds (collapseDashes (sanitize_name s)) := by rw [hmap]
    _ = stripEnds (sanitize_name s) := by rw [hcol]
    _ = sanitize_name s := hstrip

/-! ### C8 -/

theorem ruleMatches_iff (p entry : List Char) :
    ruleMatches p entry = true ↔ SpecRuleMatches p entry := by
  cases p with
  | nil => simp [ruleMatches, SpecRuleMatches]
  | cons c rest =>
    by_cases hc : c = '*'
    · simp [ruleMatches, SpecRuleMatches, hc, List.isSuffixOf_iff_suffix]
    · simp [ruleMatches, SpecRuleMatches, hc]

/-- C8: the exclusion matcher returns true for an entry name iff some
rule of the default rule set matches it — a rule starting with `*`
matching when the entry name ends with the rule's remainder, any other
rule matching on exact equality — and on the default rule set it
accepts `node_modules` and `foo.pyc` and rejects `readme.md`. -/
theorem should_exclude_correct :
    (∀ entry : List Char,
      should_exclude entry = true ↔ ∃ p ∈ exclude_patterns, SpecRuleMatches p entry) ∧
    should_exclude "node_modules".data = true ∧
    should_exclude "foo.pyc".data = true ∧
    should_exclude "readme.md".data = false := by
  refine ⟨fun entry => ?_, by decide, by decide, by decide⟩
  rw [should_exclude, List.any_eq_true]
  constructor
  · rintro ⟨p, hp, hm⟩
    exact ⟨p, hp, (ruleMatches_iff p entry).mp hm⟩
  · rintro ⟨p, hp, hm⟩
    exact ⟨p, hp, (ruleMatches_iff p entry).mpr hm⟩

/-! ### C1 -/

/-- C1 (code bug): with the target root resolved strictly inside the
template root, the run proceeds exactly as for any other target — the
source never compares `self.target_dir` with `self.template_dir` — so
the target directory is created and the template copy is performed
(filesystem mutations) with no validation error of any kind, and the
process exits with code 0.  The final conjunct records that `scaffold`
is independent of the resolved paths altogether. -/
theorem subpath_target_not_validated :
    isSubpathOf cfgSub.targetDir cfgSub.templateDir = true ∧
    (scaffold cfgSub envAllOk).raised = false ∧
    (scaffold cfgSub envAllOk).success = true ∧
    Event.mkdirTarget ∈ (scaffold cfgSub envAllOk).events ∧
    Event.copyFiles ∈ (scaffold cfgSub envAllOk).events ∧
    mainExit cfgSub envAllOk = 0 ∧
    (∀ (cfg cfg' : Config) (env : Env), scaffold cfg env = scaffold cfg' env) := by
  refine ⟨by decide, by decide, by decide, by decide, by decide, by decide,
    fun cfg cfg' env => rfl⟩

/-! ### C2 -/

/-- C2 counterexample: with `backend/.env.example` present and a
pre-existing `backend/.env` holding user edits, the bootstrap step
still copies the example over the live file — the source (lines
321-333) guards only on the example's existence, never on the live
file's — so the pre-existing live environment file is overwritten. -/
theorem env_file_overwritten_counterexample :
    envC2.backendEnvExample = some "EXAMPLE CONTENT" ∧
    envC2.backendEnvLive = some "USER EDITS" ∧
    (setup_development_environment envC2).backendEnvLive = some "EXAMPLE CONTENT" ∧
    (setup_development_environment envC2).backendEnvLive ≠ envC2.backendEnvLive := by
  refine ⟨rfl, rfl, rfl, by decide⟩

/-- C2 amended: the bootstrap step copies a sub-project's example
environment file to its live name whenever the example exists —
regardless of whether the live file already exists, overwriting it with
the example's content if it does — and leaves the live file unchanged
when the example is absent. -/
theorem bootstrap_env_copy_semantics (env : Env) :
    (∀ c : String, env.backendEnvExample = some c →
      (setup_development_environment env).backendEnvLive = some c) ∧
    (env.backendEnvExample = none →
      (setup_development_environment env).backendEnvLive = env.backendEnvLive) ∧
    (∀ c : String, env.frontendEnvExample = some c →
      (setup_development_environment env).frontendEnvLive = some c) ∧
    (env.frontendEnvExample = none →
      (setup_development_environment env).frontendEnvLive = env.frontendEnvLive) := by
  refine ⟨fun c hc => ?_, fun hc => ?_, fun c hc => ?_, fun hc => ?_⟩ <;>
    simp [setup_development_environment, envLiveAfter, hc]

/-- Witness for the amended C2 at a concrete environment with both an
example and a pre-existing live file. -/
theorem bootstrap_env_copy_semantics_witness :
    (setup_development_environment envC2).backendEnvLive = some "EXAMPLE CONTENT" :=
  (bootstrap_env_copy_semantics envC2).1 "EXAMPLE CONTENT" rfl

/-! ### C3 -/

/-- C3 (code bug): the summary text is an f-string built before the
`try` of `create_project_summary`, and it embeds
`subprocess.check_output(['date'])`; if that call fails the exception
escapes the method, crosses `scaffold` (which has no handler), reaches
`main`'s generic handler and the process exits 1 even though every
pipeline step succeeded.  Only a failure of the file write itself is
caught and downgraded to a warning, keeping exit code 0. -/
theorem summary_date_failure_flips_exit :
    envDateFail.copyOk = true ∧ envDateFail.updateOk = true ∧ envDateFail.gitOk = true ∧
    (setup_development_environment envDateFail).success = true ∧
    (scaffold cfgDemo envDateFail).raised = true ∧
    (scaffold cfgDemo envDateFail).success = false ∧
    mainExit cfgDemo envDateFail = 1 ∧
    (scaffold cfgDemo envWriteFail).success = true ∧
    Event.summaryWarn ∈ (scaffold cfgDemo envWriteFail).events ∧
    mainExit cfgDemo envWriteFail = 0 := by
  decide

/-! ### C4 -/

/-- C4 (code bug): the bootstrap step always returns success and never
aborts the pipeline — `setup_development_environment` ends in
`return True`, and both install commands go through
`run_command(..., check=False)`, which returns `True` regardless of the
exit status — but for the same reason an install failure is **not**
logged as a warning: the warning branches (lines 353, 355, 364) are
unreachable, and the step logs the success message even when the pip
and npm commands exit non-zero. -/
theorem bootstrap_never_fails_but_warnings_unreachable :
    (∀ env : Env, (setup_development_environment env).success = true) ∧
    envPipFail.pipExit = false ∧ envPipFail.npmExit = false ∧
    mainExit cfgDemo envPipFail = 0 ∧
    Event.logInstallOk .backend ∈ (setup_development_environment envPipFail).events ∧
    Event.logInstallWarn .backend ∉ (setup_development_environment envPipFail).events ∧
    Event.logInstallOk .frontend ∈ (setup_development_environment envPipFail).events ∧
    Event.logInstallWarn .frontend ∉ (setup_development_environment envPipFail).events ∧
    Event.logVenvWarn ∉ (setup_development_environment envPipFail).events := by
  refine ⟨fun env => rfl, ?_⟩
  decide

/-! ### C5 -/

/-- C5 (code bug): `--skip-deps` is parsed (lines 557-561) but never
consulted — `ProjectScaffolder` receives only the name, description and
target (line 602) — so a run with the flag is literally identical to a
run without it, and in particular it still attempts the
virtual-environment creation, the pip install and the npm install
whenever the dependency-declaration files exist. -/
theorem skip_deps_flag_ignored :
    (∀ (a : Args) (cfg : Config) (env : Env),
      mainScaffold { a with skipDeps := true } cfg env
        = mainScaffold { a with skipDeps := false } cfg env) ∧
    argsSkip.skipDeps = true ∧
    envDeps.backendReq = true ∧ envDeps.frontendPkg = true ∧
    Event.runVenv ∈ (mainScaffold argsSkip cfgDemo envDeps).events ∧
    Event.runPipInstall ∈ (mainScaffold argsSkip cfgDemo envDeps).events ∧
    Event.runNpmInstall ∈ (mainScaffold argsSkip cfgDemo envDeps).events := by
  refine ⟨fun a cfg env => rfl, ?_⟩
  decide

/-! ### C9 -/

/-- C9: the pipeline halts at the first failing step.  Under a passed
precheck, if the copy step fails nothing after it runs; if copy
succeeds and the rewrite step fails nothing after it runs; if copy and
rewrite succeed and the repository-init step fails, the bootstrap step,
the install commands and the summary never run.  In every case the
failing step is recorded by name and the process exits 1. -/
theorem pipeline_halts_at_first_failure (cfg : Config) (env : Env)
    (hpre : cancelledPrompt env = false) :
    (env.copyOk = false →
      (scaffold cfg env).success = false ∧
      (scaffold cfg env).raised = false ∧
      mainExit cfg env = 1 ∧
      Event.stepFailed .copyStep ∈ (scaffold cfg env).events ∧
      Event.stepStarted .updateStep ∉ (scaffold cfg env).events ∧
      Event.stepStarted .gitStep ∉ (scaffold cfg env).events ∧
      Event.stepStarted .envStep ∉ (scaffold cfg env).events ∧
      Event.runVenv ∉ (scaffold cfg env).events ∧
      Event.runNpmInstall ∉ (scaffold cfg env).events ∧
      Event.writeSummary ∉ (scaffold cfg env).events ∧
      Event.summaryWarn ∉ (scaffold cfg env).events) ∧
    (env.copyOk = true → env.updateOk = false →
      (scaffold cfg env).success = false ∧
      (scaffold cfg env).raised = false ∧
      mainExit cfg env = 1 ∧
      Event.stepFailed .updateStep ∈ (scaffold cfg env).events ∧
      Event.stepStarted .gitStep ∉ (scaffold cfg env).events ∧
      Event.stepStarted .envStep ∉ (scaffold cfg env).events ∧
      Event.runVenv ∉ (scaffold cfg env).events ∧
      Event.runNpmInstall ∉ (scaffold cfg env).events ∧
      Event.writeSummary ∉ (scaffold cfg env).events ∧
      Event.summaryWarn ∉ (scaffold cfg env).events) ∧
    (env.copyOk = true → env.updateOk = true → env.gitOk = false →
      (scaffold cfg env).success = false ∧
      (scaffold cfg env).raised = false ∧
      mainExit cfg env = 1 ∧
      Event.stepFailed .gitStep ∈ (scaffold cfg env).events ∧
      Event.stepStarted .envStep ∉ (scaffold cfg env).events ∧
      Event.runVenv ∉ (scaffold cfg env).events ∧
      Event.runNpmInstall ∉ (scaffold cfg env).events ∧
      Event.writeSummary ∉ (scaffold cfg env).events ∧
      Event.summaryWarn ∉ (scaffold cfg env).events) := by
  refine ⟨fun h1 => ?_, fun h1 h2 => ?_, fun h1 h2 h3 => ?_⟩ <;>
  · by_cases hte : env.targetExists <;>
      simp [scaffold, mainExit, hpre, hte, h1, *]

/-- Witness for C9 at a concrete run whose copy step fails. -/
theorem pipeline_halts_witness :
    cancelledPrompt envCopyFail = false ∧
    (scaffold cfgDemo envCopyFail).success = false ∧
    mainExit cfgDemo envCopyFail = 1 ∧
    Event.stepFailed .copyStep ∈ (scaffold cfgDemo envCopyFail).events ∧
    Event.stepStarted .updateStep ∉ (scaffold cfgDemo envCopyFail).events := by
  have h := (pipeline_halts_at_first_failure cfgDemo envCopyFail (by decide)).1 (by decide)
  exact ⟨by decide, h.1, h.2.2.1, h.2.2.2.1, h.2.2.2.2.1⟩

end Scaffold
